import Mathlib

/-!
Formal model of the sojbot-3000 coordination core.

The definitions below are a shallow embedding of the Python sources:
src/artist.py (RateLimiter, Artist.generate_ai_image, Artist.composite),
src/database.py (DatabaseManager.add_link / get_steam_id),
src/discord_service.py (LinkView, DiscordBot.setup_hooks, on_steam_friend_added)
and src/steam_service.py (SteamService.on_friend_invite, add_friend).

Python built-in string operations used by the sources are modelled explicitly
on the underlying character lists so that every definition is executable and
kernel-evaluable.
-/

/-! ## Python string primitives -/

/-- Models Python str.startswith: the characters of the candidate are a
list-prefix of the characters of the subject string. -/
def pyStartsWith (s p : String) : Bool :=
  p.data.isPrefixOf s.data

/-- Models Python len(s) on a str: the number of characters (code points). -/
def pyLen (s : String) : Nat :=
  s.data.length

/-- Models the Python slice s[n:] on a str: drop the first n characters. -/
def pyDrop (s : String) (n : Nat) : String :=
  ⟨s.data.drop n⟩

/-- Worker for pySplit: scans the character list left to right, splitting at
each leftmost non-overlapping occurrence of the separator. The fuel argument
only guarantees structural recursion; it is always at least the length of the
scanned list plus one, so it never runs out for a non-empty separator. -/
def pySplitAux (sep : List Char) : Nat → List Char → List Char → List (List Char)
  | _, [], acc => [acc.reverse]
  | 0, s, acc => [acc.reverse ++ s]
  | fuel + 1, c :: rest, acc =>
    if sep.isPrefixOf (c :: rest) then
      acc.reverse :: pySplitAux sep fuel ((c :: rest).drop sep.length) []
    else
      pySplitAux sep fuel rest (c :: acc)

/-- Models Python s.split(sub) for a non-empty separator sub: the list of
segments between leftmost non-overlapping occurrences of sub. -/
def pySplit (s sub : String) : List String :=
  (pySplitAux sub.data (s.data.length + 1) s.data []).map (fun l => String.mk l)

/-- Models Python str.join over a list of segments. -/
def pyJoin (sep : String) : List String → String
  | [] => ""
  | [x] => x
  | x :: y :: rest => x ++ sep ++ pyJoin sep (y :: rest)

/-- Models the Python membership test (sub in s) for a non-empty separator:
sub occurs in s exactly when splitting s on sub yields at least two segments. -/
def pyContains (s sub : String) : Bool :=
  decide (2 ≤ (pySplit s sub).length)

/-- Models Python dict.get(k) with no default: the value stored under the key,
if any.  Mappings are modelled as association lists with distinct keys. -/
def pyGetOpt (d : List (String × String)) (k : String) : Option String :=
  (d.find? (fun p => p.1 == k)).map Prod.snd

/-- Models Python dict.get(k, fallback). -/
def pyGet (d : List (String × String)) (k fallback : String) : String :=
  (pyGetOpt d k).getD fallback

/-- Models the Python expression (a or b) where a is an optional string and b
a string: a string is truthy exactly when it is non-empty, and a missing value
(None) is falsy. -/
def pyOrStr (a : Option String) (b : String) : String :=
  match a with
  | some s => if s = "" then b else s
  | none => b

/-- Models Python int(s) on an optionally minus-signed decimal string (the
only forms the force_add command receives); any other content raises
ValueError in Python, modelled as none. -/
def pyDigitsAux : List Char → Nat → Option Nat
  | [], acc => some acc
  | c :: rest, acc =>
    if c.isDigit then pyDigitsAux rest (acc * 10 + (c.toNat - 48))
    else none

/-- Models Python int(s); see pyDigitsAux. -/
def pyInt (s : String) : Option Int :=
  match s.data with
  | [] => none
  | '-' :: rest =>
    if rest.isEmpty then none
    else (pyDigitsAux rest 0).map (fun n => -(n : Int))
  | l => (pyDigitsAux l 0).map (fun n => (n : Int))

/-! ## RateLimiter (src/artist.py lines 11-29)

Timestamps and token counts are modelled as rationals.  The constructor
RateLimiter(rate, per) sets allowance = rate and last_check = now, so a bucket
of capacity C that starts full at time t is ⟨C, per, C, t⟩. -/

structure RateLimiter where
  rate : ℚ
  per : ℚ
  allowance : ℚ
  last_check : ℚ
deriving DecidableEq

/-- Lines 20-23 of src/artist.py: the refilled allowance before clamping,
allowance + time_passed * (rate / per). -/
def RateLimiter.refill (rl : RateLimiter) (current : ℚ) : ℚ :=
  rl.allowance + (current - rl.last_check) * (rl.rate / rl.per)

/-- Lines 24-25 of src/artist.py: the refilled allowance clamped down to rate. -/
def RateLimiter.clamped (rl : RateLimiter) (current : ℚ) : ℚ :=
  if rl.refill current > rl.rate then rl.rate else rl.refill current

/-- RateLimiter.check (src/artist.py lines 19-29): refill and clamp the
allowance, update last_check, then either deny (allowance < 1, no further
mutation) or subtract one token and admit. -/
def RateLimiter.check (rl : RateLimiter) (current : ℚ) : RateLimiter × Bool :=
  if rl.clamped current < 1 then
    ({ rl with allowance := rl.clamped current, last_check := current }, false)
  else
    ({ rl with allowance := rl.clamped current - 1, last_check := current }, true)

/-- Driver for the burst property: perform n consecutive check calls, all at
the same instant t, returning the final limiter state and the list of
results in call order. -/
def RateLimiter.checkN (rl : RateLimiter) (t : ℚ) : Nat → RateLimiter × List Bool
  | 0 => (rl, [])
  | n + 1 =>
    let step := rl.check t
    let rest := step.1.checkN t n
    (rest.1, step.2 :: rest.2)

/-! ## PresenceTranslator (src/discord_service.py lines 179-220)

The banner slash command parses the raw rich-presence mapping into the fields
(rank, name_only, actual_name, location, year, flavor). -/

/-- The rank catalog, in source order (src/discord_service.py lines 186-191). -/
def ranks : List String :=
  ["Melekh Ha\x27Melakhim", "High Chieftain", "Emperor", "Basileus", "Maharaja",
   "Melekh", "Sultan", "Sheikh", "Despot", "Chieftain",
   "Count", "Duke", "King", "Jarl", "Shah", "Doux", "Emir", "Raja",
   "Nasi", "Rozen", "Gaon"]

/-- Stable insertion of a string into a list sorted by descending length:
the element walks past strictly longer entries and stops before entries of
equal or smaller length, preserving original order among equal lengths. -/
def insertByLen (x : String) : List String → List String
  | [] => [x]
  | y :: ys => if pyLen x < pyLen y then y :: insertByLen x ys else x :: y :: ys

/-- Models the Python call ranks.sort(key=len, reverse=True)
(src/discord_service.py line 193): a stable sort by descending length. -/
def sortByLenDesc : List String → List String
  | [] => []
  | x :: xs => insertByLen x (sortByLenDesc xs)

/-- The rank catalog after the in-place stable length sort of line 193. -/
def ranksSorted : List String :=
  sortByLenDesc ranks

/-- The per-entry test of the rank-matching loop
(src/discord_service.py line 199): char_full.startswith(r + " "). -/
def rankMatches (char_full r : String) : Bool :=
  pyStartsWith char_full (r ++ " ")

/-- The rank-matching loop (src/discord_service.py lines 195-202): starting
from rank "Ruler" and name_only = char_full, take the first catalog entry r
(in sorted order) with char_full.startswith(r + " "); on a match the rank is r
and the name segment is char_full[len(r)+1:]. -/
def matchRank (char_full : String) : String × String :=
  match ranksSorted.find? (rankMatches char_full) with
  | some r => (r, pyDrop char_full (pyLen r + 1))
  | none => ("Ruler", char_full)

/-- The realm extraction (src/discord_service.py lines 210-216): when the
name segment contains " of ", split once at the first occurrence into
(actual_name, location); otherwise location is the sentinel "Unknown Realm".
Splitting once at the first occurrence (Python split(" of ", 1)) is recovered
from the full split by rejoining every segment after the first. -/
def splitRealm (name_only : String) : String × String :=
  if pyContains name_only " of " then
    ((pySplit name_only " of ").headD "", pyJoin " of " (pySplit name_only " of ").tail)
  else
    (name_only, "Unknown Realm")

/-- The year lookup (src/discord_service.py line 181):
rp.get(Year) or rp.get(param_year) or the sentinel, with Python or-semantics
(a missing or empty string falls through to the next alternative). -/
def yearOf (rp : List (String × String)) : String :=
  pyOrStr (pyGetOpt rp "Year") (pyOrStr (pyGetOpt rp "param_year") "Unknown Year")

/-- The parsed presence fields; rawActivity is the character string the parse
started from. -/
structure PresenceSnapshot where
  rank : String
  name_only : String
  actual_name : String
  location : String
  year : String
  flavor : String
deriving DecidableEq

/-- The full translation performed by the banner command
(src/discord_service.py lines 179-216) from the raw presence mapping. -/
def translatePresence (rp : List (String × String)) : PresenceSnapshot :=
  let char_full := pyGet rp "character" "Unknown Ruler"
  let flavor := pyGet rp "flavor" ""
  let year := yearOf rp
  let rn := matchRank char_full
  let al := splitRealm rn.2
  ⟨rn.1, rn.2, al.1, al.2, year, flavor⟩

/-! ## Link store (src/database.py) -/

/-- DatabaseManager.add_link (src/database.py lines 34-45): INSERT OR REPLACE
on the links table whose primary key is discord_id — any existing row for the
same discord_id is replaced, so the upsert keeps at most one row per
requester. -/
def add_link (links : List (Nat × Int)) (discord_id : Nat) (steam_id : Int) :
    List (Nat × Int) :=
  links.filter (fun p => p.1 != discord_id) ++ [(discord_id, steam_id)]

/-- DatabaseManager.get_steam_id (src/database.py lines 26-32): the steam id
stored for a requester, if any. -/
def get_steam_id (links : List (Nat × Int)) (discord_id : Nat) : Option Int :=
  (links.find? (fun p => p.1 == discord_id)).map Prod.snd

/-! ## LinkCoordinator state (src/discord_service.py) -/

/-- A LinkView (src/discord_service.py lines 8-17): the pending-handshake UI
object.  viewId is the object identity used by list removal, requesterId is
original_interaction.user.id, and createdAt the instant of construction.  The
constructor passes timeout=300 to discord.ui.View, recorded as
linkViewTimeout below. -/
structure LinkView where
  viewId : Nat
  requesterId : Nat
  createdAt : Int
deriving DecidableEq

/-- The 300-second view timeout configured in LinkView.__init__
(src/discord_service.py line 10). -/
def linkViewTimeout : Int := 300

/-- The mutable DiscordBot state touched by the linking flow: the persistent
links table and the in-memory pending_links collection
(src/discord_service.py line 50). -/
structure BotState where
  links : List (Nat × Int)
  pending_links : List LinkView
deriving DecidableEq

/-- Models awaiting the value returned by a call to a plain (non-async)
function: the call itself has already run to completion, and awaiting its
None result then raises TypeError (None is not awaitable).
DatabaseManager.add_link is a plain def (src/database.py line 34), so this is
the runtime meaning of the expression awaiting db.add_link(...). -/
def awaitPlainCallResult : Except String Unit :=
  Except.error "TypeError: NoneType is not awaitable"

/-- Outcome of the confirm button callback. -/
inductive ConfirmOutcome where
  | rejected
  | typeError
  | linked
deriving DecidableEq

/-- confirm_callback inside LinkView.update_with_confirmation
(src/discord_service.py lines 25-34).  If the clicking actor is not the
original requester, an ephemeral rejection is sent and the callback returns
with no state change.  Otherwise db.add_link(actor, steam_id) runs to
completion (the row is committed) before its None return value is awaited;
that await raises TypeError, so the success edit and the removal of the view
from pending_links on lines 31-34 are never reached. -/
def confirm_callback (bot : BotState) (view : LinkView) (actorId : Nat)
    (steam_id : Int) : BotState × ConfirmOutcome :=
  if actorId != view.requesterId then
    (bot, ConfirmOutcome.rejected)
  else
    let bot1 : BotState := { bot with links := add_link bot.links actorId steam_id }
    match awaitPlainCallResult with
    | Except.error _ => (bot1, ConfirmOutcome.typeError)
    | Except.ok _ =>
      ({ bot1 with pending_links := bot1.pending_links.erase view }, ConfirmOutcome.linked)

/-- The confirmation prompt produced for one view by
LinkView.update_with_confirmation (src/discord_service.py lines 19-42): the
view is updated with a confirm button naming the new steam peer and the
original interaction message is edited to ask the requester whether the peer
is them. -/
structure Prompt where
  viewId : Nat
  steam_id : Int
  steam_name : String
deriving DecidableEq

/-- update_with_confirmation as observed by the scan: the prompt offered to
the given view for the new peer.  Its only fallible operation, the
edit_original_response call, is wrapped in its own try/except
(src/discord_service.py lines 39-42), so the coroutine itself never raises. -/
def update_with_confirmation (view : LinkView) (steam_id : Int)
    (steam_name : String) : Prompt :=
  ⟨view.viewId, steam_id, steam_name⟩

/-- DiscordBot.on_steam_friend_added (src/discord_service.py lines 251-261):
iterate over a copy of pending_links and offer every view the confirmation
prompt via update_with_confirmation.  The loop contains no check of a view
age or expiry, and because update_with_confirmation cannot raise (see above)
the except branch that would remove a view is unreachable, so the pending
collection is left unchanged.  Returns the state after the scan and the list
of prompts offered, in order. -/
def on_steam_friend_added (bot : BotState) (steam_id : Int)
    (steam_name : String) : BotState × List Prompt :=
  (bot, bot.pending_links.map (fun v => update_with_confirmation v steam_id steam_name))

/-! ## SteamService (src/steam_service.py) -/

/-- The two references on_friend_invite consults: whether a new-friend
callback has been registered (set_new_friend_callback, line 26) and whether
the asyncio loop reference has been captured (SteamService.run, line 120). -/
structure SteamServiceState where
  callbackSet : Bool
  loopSet : Bool
deriving DecidableEq

/-- Observable actions of the invite handler, in order. -/
inductive SteamEffect where
  | acceptInvite (steam_id : Int) (name : String)
  | submitCoroutine (steam_id : Int) (name : String)
deriving DecidableEq

/-- SteamService.on_friend_invite (src/steam_service.py lines 42-51): the
invite is accepted first, unconditionally; then, only when both the callback
and the loop reference are available, the (steam_id, name) notification is
submitted to the command loop with asyncio.run_coroutine_threadsafe.
Otherwise nothing further happens: the state is not modified and no queue
exists, so the event is dropped with no retry or buffering. -/
def on_friend_invite (st : SteamServiceState) (steam_id : Int) (name : String) :
    SteamServiceState × List SteamEffect :=
  let accepted := [SteamEffect.acceptInvite steam_id name]
  if st.callbackSet && st.loopSet then
    (st, accepted ++ [SteamEffect.submitCoroutine steam_id name])
  else
    (st, accepted)

/-- SteamService.add_friend (src/steam_service.py lines 64-86): False when
not connected; otherwise the id is parsed with int(...) and a ClientAddFriend
message is dispatched (modelled as succeeding), returning True; an int parse
failure raises inside the try block and yields False. -/
def add_friend (connected : Bool) (steam_id : String) : Bool :=
  if !connected then false
  else
    match pyInt steam_id with
    | some _ => true
    | none => false

/-- Outcome of the force_add slash command. -/
inductive ForceAddOutcome where
  | requestSentAndLinked (sid : Int)
  | requestSentOnly
  | sendFailed
deriving DecidableEq

/-- The force_add slash command (src/discord_service.py lines 105-140): call
add_friend; on failure report and stop.  On success, int(steam_id) is parsed
again and db.add_link(requester, sid) runs to completion — the row is
committed — before its None result is awaited; the resulting TypeError is
swallowed by the bare except, which only suppresses the second follow-up
message.  No pending handshake, new-peer event or confirmation is involved. -/
def force_add (connected : Bool) (bot : BotState) (requester : Nat)
    (steam_id : String) : BotState × ForceAddOutcome :=
  if add_friend connected steam_id then
    match pyInt steam_id with
    | some sid =>
      ({ bot with links := add_link bot.links requester sid },
        ForceAddOutcome.requestSentAndLinked sid)
    | none => (bot, ForceAddOutcome.requestSentOnly)
  else
    (bot, ForceAddOutcome.sendFailed)

/-! ## Artist (src/artist.py) -/

/-- An image, abstracted to its pixel dimensions. -/
structure Image where
  width : Nat
  height : Nat
deriving DecidableEq

/-- A drawing operation applied to the canvas, in application order. -/
inductive DrawOp where
  | paste (img : Image) (x y : Nat)
  | rect (x0 y0 x1 y1 : Nat) (r g b : Nat)
  | text (x y : Nat) (s : String) (r g b : Nat)
deriving DecidableEq

/-- A canvas: its dimensions and the drawing operations applied to it. -/
structure Canvas where
  width : Nat
  height : Nat
  ops : List DrawOp
deriving DecidableEq

/-- The bg_layer chosen in Artist.__init__ (src/artist.py lines 37-43): the
loaded background.png when that asset exists, else a fresh 1000 x 300 grey
placeholder canvas. -/
def mkBgLayer (background : Option Image) : Canvas :=
  match background with
  | some img => ⟨img.width, img.height, []⟩
  | none => ⟨1000, 300, []⟩

/-- Models PIL ImageOps.fit (src/artist.py line 98): resize and centre-crop
the input to exactly the requested dimensions, whatever its aspect ratio. -/
def imageFit (img : Image) (w h : Nat) : Image :=
  match img with
  | _ => ⟨w, h⟩

/-- The fixed 8-byte signature that opens every PNG stream; PIL's PNG writer
always emits it, so the encoded buffer is never empty.  The chunks that
follow are abstracted away. -/
def pngSignature : List Nat :=
  [137, 80, 78, 71, 13, 10, 26, 10]

/-- The in-memory buffer produced by canvas.save(output, format=PNG) followed
by output.seek(0) (src/artist.py lines 137-139).  PNG is a lossless format,
so the encoded content is the canvas itself, recorded in the content field;
data holds the modelled bytes and pos the stream position after the seek. -/
structure EncodedImage where
  content : Canvas
  format : String
  data : List Nat
  pos : Nat
deriving DecidableEq

/-- canvas.save(output, format=PNG); output.seek(0). -/
def savePNG (c : Canvas) : EncodedImage :=
  ⟨c, "PNG", pngSignature, 0⟩

/-- Artist.composite (src/artist.py lines 83-140).  The canvas starts as a
copy of bg_layer.  With an AI image, ImageOps.fit crops it to the 290 x 190
portrait box and it is pasted at (65, 55); without one, a dark placeholder
rectangle and the "NO SIGNAL" marker are drawn there instead.  The three
text rows are then drawn at fixed coordinates, each field read with
text_data.get(key, default empty string).  Font selection (lines 109-125)
only chooses font objects and degrades internally to a built-in default, so
it is not modelled.  The result is the PNG-encoded buffer rewound to the
start. -/
def composite (bg_layer : Canvas) (ai_image : Option Image)
    (text_data : List (String × String)) : EncodedImage :=
  let canvas0 := bg_layer
  let canvas1 :=
    match ai_image with
    | some img =>
      { canvas0 with ops := canvas0.ops ++ [DrawOp.paste (imageFit img 290 190) 65 55] }
    | none =>
      { canvas0 with ops := canvas0.ops ++
          [DrawOp.rect 65 55 355 245 20 10 10,
           DrawOp.text 145 135 "NO SIGNAL" 100 100 100] }
  let canvas2 :=
    { canvas1 with ops := canvas1.ops ++
        [DrawOp.text 730 75 (pyGet text_data "row1" "") 40 30 10,
         DrawOp.text 735 160 (pyGet text_data "row2" "") 0 0 0,
         DrawOp.text 735 245 (pyGet text_data "row3" "") 60 40 20] }
  savePNG canvas2

/-- The image payload extracted from a synthesis response part. -/
structure InlineData where
  bytes : List Nat
deriving DecidableEq

/-- One part of a synthesis response: optional inline image data and a text
field (empty when no text was returned). -/
structure ResponsePart where
  inline_data : Option InlineData
  text : String
deriving DecidableEq

/-- A synthesis response: its candidates, each carrying content parts.  The
nesting response.candidates[0].content.parts is flattened to one list per
candidate. -/
structure GenResponse where
  candidates : List (List ResponsePart)
deriving DecidableEq

/-- The part-scanning loop of Artist.generate_ai_image (src/artist.py lines
68-74): return the PIL-decoded image of the first part carrying inline data;
parts carrying only text are merely logged. -/
def firstInlineImage : List ResponsePart → Option InlineData
  | [] => none
  | p :: rest =>
    match p.inline_data with
    | some d => some d
    | none => firstInlineImage rest

/-- The response unpacking of src/artist.py lines 68-77: both the candidates
list and the first candidate parts list must be non-empty (Python truthiness
of the conjunction on line 68), then the parts are scanned; otherwise no
image data is found and None is returned. -/
def extract_image (resp : GenResponse) : Option InlineData :=
  match resp.candidates with
  | [] => none
  | parts :: _ =>
    match parts with
    | [] => none
    | _ => firstInlineImage parts

/-- Artist.generate_ai_image (src/artist.py lines 45-81).  The rate limiter
is consulted first: when it denies, None is returned immediately and no
synthesis call is issued.  Otherwise the synthesis call runs; the call
parameter stands for the outcome of the network request together with
response parsing and PIL decoding, so any transport or parsing exception is
an error value, which the surrounding try/except catches, logs and turns
into None.  The result is the new limiter state, whether the synthesis call
was issued, and the image (None on denial, missing payload or exception);
the function is total, so no exception propagates to the caller. -/
def generate_ai_image (limiter : RateLimiter) (now : ℚ)
    (call : Except String GenResponse) : RateLimiter × Bool × Option InlineData :=
  let res := limiter.check now
  if res.2 then
    match call with
    | Except.error _ => (res.1, true, none)
    | Except.ok resp => (res.1, true, extract_image resp)
  else
    (res.1, false, none)

/-! ## Helper lemmas -/

/-- The clamp of lines 24-25 computes the minimum of the refilled allowance
and the capacity. -/
theorem clamped_eq_min (rl : RateLimiter) (t : ℚ) :
    rl.clamped t = min (rl.refill t) rl.rate := by
  rw [RateLimiter.clamped]
  split_ifs with h
  · exact (min_eq_right (le_of_lt h)).symm
  · exact (min_eq_left (not_lt.mp h)).symm

/-- With zero elapsed time and an allowance not above capacity, a check call
refills nothing and either denies (allowance below one token) or subtracts
exactly one token. -/
theorem check_zero_elapsed (rate per a t : ℚ) (h : a ≤ rate) :
    RateLimiter.check ⟨rate, per, a, t⟩ t
      = if a < 1 then (⟨rate, per, a, t⟩, false) else (⟨rate, per, a - 1, t⟩, true) := by
  have h1 : RateLimiter.refill ⟨rate, per, a, t⟩ t = a := by
    simp [RateLimiter.refill]
  have h2 : RateLimiter.clamped ⟨rate, per, a, t⟩ t = a := by
    rw [RateLimiter.clamped, h1]
    exact if_neg (not_lt.mpr h)
  rw [RateLimiter.check, h2]

/-- A bucket holding n whole tokens (n at most the capacity) admits exactly
its first n zero-elapsed calls and denies the next, ending empty. -/
theorem checkN_burst (rate per t : ℚ) :
    ∀ n : Nat, (n : ℚ) ≤ rate →
      RateLimiter.checkN ⟨rate, per, (n : ℚ), t⟩ t (n + 1)
        = (⟨rate, per, 0, t⟩, List.replicate n true ++ [false]) := by
  intro n
  induction n with
  | zero =>
    intro h
    have hc := check_zero_elapsed rate per ((0 : Nat) : ℚ) t (by exact_mod_cast h)
    rw [if_pos (by norm_num)] at hc
    simp only [RateLimiter.checkN]
    rw [hc]
    norm_num
  | succ n ih =>
    intro h
    have hle : ((n : ℚ)) ≤ rate := by
      refine le_trans ?_ h
      exact_mod_cast Nat.le_succ n
    have hc := check_zero_elapsed rate per ((n + 1 : Nat) : ℚ) t h
    rw [if_neg (by push_cast; linarith [Nat.cast_nonneg (α := ℚ) n])] at hc
    have hsub : ((n + 1 : Nat) : ℚ) - 1 = (n : ℚ) := by push_cast; ring
    rw [hsub] at hc
    show (let step := RateLimiter.check ⟨rate, per, ((n + 1 : Nat) : ℚ), t⟩ t
          let rest := step.1.checkN t (n + 1)
          (rest.1, step.2 :: rest.2))
        = (⟨rate, per, 0, t⟩, List.replicate (n + 1) true ++ [false])
    rw [hc]
    simp only []
    rw [ih hle]
    simp [List.replicate_succ]

/-! ## Claims -/

/-- C4.  For a rate limiter of capacity C starting full, with zero elapsed
time between calls, the first C check() calls return true and the (C+1)th
returns false; on a denied call the allowance equals the refilled clamped
value (no mutation beyond the refill); and after any elapsed interval the
refilled allowance is clamped so it never exceeds the capacity. -/
theorem c4_rate_limiter (C : Nat) (per t : ℚ) (rl : RateLimiter) :
    (RateLimiter.checkN ⟨(C : ℚ), per, (C : ℚ), t⟩ t (C + 1)).2
        = List.replicate C true ++ [false]
    ∧ ((rl.check t).2 = false →
        (rl.check t).1.allowance = min (rl.refill t) rl.rate)
    ∧ (rl.check t).1.allowance ≤ rl.rate := by
  refine ⟨?_, ?_, ?_⟩
  · rw [checkN_burst (C : ℚ) per t C (le_refl _)]
  · intro hf
    rw [RateLimiter.check] at hf ⊢
    split_ifs at hf ⊢ with h
    simpa using clamped_eq_min rl t
  · rw [RateLimiter.check]
    have hm : rl.clamped t ≤ rl.rate := by
      rw [clamped_eq_min]
      exact min_le_right _ _
    split_ifs with h
    · simpa using hm
    · show rl.clamped t - 1 ≤ rl.rate
      linarith

/-- Witness for C4 at capacity 5, period 60, all calls at time 0, and the
denied-call clause at an empty bucket. -/
theorem c4_witness :
    (RateLimiter.checkN ⟨((5 : Nat) : ℚ), 60, ((5 : Nat) : ℚ), 0⟩ 0 6).2
        = List.replicate 5 true ++ [false]
    ∧ (RateLimiter.check ⟨5, 60, 0, 0⟩ 0).1.allowance
        = min (RateLimiter.refill ⟨5, 60, 0, 0⟩ 0) (5 : ℚ)
    ∧ (RateLimiter.check ⟨5, 60, 0, 0⟩ 0).1.allowance ≤ (5 : ℚ) := by
  have h := c4_rate_limiter 5 60 0 ⟨5, 60, 0, 0⟩
  refine ⟨h.1, h.2.1 ?_, h.2.2⟩
  norm_num [RateLimiter.check, RateLimiter.clamped, RateLimiter.refill]

/-- The rank catalog after the stable descending-length sort, in explicit
form; in particular "High Chieftain" is tested before "Chieftain". -/
theorem ranksSorted_eq :
    ranksSorted
      = ["Melekh Ha\x27Melakhim", "High Chieftain", "Chieftain", "Basileus", "Maharaja",
         "Emperor", "Melekh", "Sultan", "Sheikh", "Despot", "Count", "Rozen",
         "Duke", "King", "Jarl", "Shah", "Doux", "Emir", "Raja", "Nasi", "Gaon"] := by
  decide

/-- Sorting does not add catalog entries. -/
theorem ranksSorted_subset : ∀ x ∈ ranksSorted, x ∈ ranks := by
  decide

/-- An activity string that starts with the long token "High Chieftain "
never resolves to the bare rank "Chieftain": the only entries the sorted
catalog tests before "High Chieftain" cannot change that outcome. -/
theorem matchRank_high_chieftain (s : String)
    (h : pyStartsWith s "High Chieftain " = true) :
    (matchRank s).1 ≠ "Chieftain" := by
  have hhc : rankMatches s "High Chieftain" = true := by
    have e : ("High Chieftain" ++ " ") = "High Chieftain " := by decide
    rw [rankMatches, e]
    exact h
  rw [matchRank, ranksSorted_eq]
  cases hm : rankMatches s "Melekh Ha\x27Melakhim" with
  | true =>
    rw [List.find?_cons_of_pos _ hm]
    simp
  | false =>
    rw [List.find?_cons_of_neg _ (by rw [hm]; exact Bool.false_ne_true),
      List.find?_cons_of_pos _ hhc]
    simp

/-- C5.  The presence translation maps the character string
"Count Mordechai of Tmutarakan" to rank "Count", actual name "Mordechai" and
realm "Tmutarakan"; ranks are matched longest-first, so an activity string
starting with "High Chieftain " never resolves to bare "Chieftain"; a name
segment not containing " of " gets the realm sentinel "Unknown Realm"; and
the year is read from the Year field, then the param_year fallback, and
defaults to "Unknown Year" when both are absent. -/
theorem c5_presence_translator :
    ((translatePresence [("character", "Count Mordechai of Tmutarakan")]).rank = "Count"
      ∧ (translatePresence [("character", "Count Mordechai of Tmutarakan")]).actual_name
          = "Mordechai"
      ∧ (translatePresence [("character", "Count Mordechai of Tmutarakan")]).location
          = "Tmutarakan")
    ∧ (∀ s : String, pyStartsWith s "High Chieftain " = true → (matchRank s).1 ≠ "Chieftain")
    ∧ (∀ s : String, pyContains s " of " = false → (splitRealm s).2 = "Unknown Realm")
    ∧ (∀ (rp : List (String × String)) (y : String),
        (pyGetOpt rp "Year" = some y → y ≠ "" → yearOf rp = y)
        ∧ (pyGetOpt rp "Year" = none → pyGetOpt rp "param_year" = some y → y ≠ "" →
            yearOf rp = y)
        ∧ (pyGetOpt rp "Year" = none → pyGetOpt rp "param_year" = none →
            yearOf rp = "Unknown Year")) := by
  refine ⟨by decide, matchRank_high_chieftain, ?_, ?_⟩
  · intro s h
    simp [splitRealm, h]
  · intro rp y
    refine ⟨?_, ?_, ?_⟩
    · intro h1 hy
      simp [yearOf, h1, pyOrStr, hy]
    · intro h1 h2 hy
      simp [yearOf, h1, h2, pyOrStr, hy]
    · intro h1 h2
      simp [yearOf, h1, h2, pyOrStr]

/-- Witness for C5: each quantified clause of the theorem applied at a
concrete input. -/
theorem c5_witness :
    (matchRank "High Chieftain Olaf of Norway").1 ≠ "Chieftain"
    ∧ (splitRealm "Mordechai").2 = "Unknown Realm"
    ∧ yearOf [("Year", "867")] = "867"
    ∧ yearOf [("param_year", "1066")] = "1066"
    ∧ yearOf [] = "Unknown Year" := by
  have h := c5_presence_translator
  refine ⟨h.2.1 _ (by decide), h.2.2.1 _ (by decide), ?_, ?_, ?_⟩
  · exact (h.2.2.2 [("Year", "867")] "867").1 (by decide) (by decide)
  · exact (h.2.2.2 [("param_year", "1066")] "1066").2.1 (by decide) (by decide) (by decide)
  · exact (h.2.2.2 [] "867").2.2 (by decide) (by decide)

/-- C10.  A character string that starts with no catalog rank followed by a
space keeps the default rank "Ruler", and the whole character string becomes
the name segment, which is still split on " of " for the realm. -/
theorem c10_default_rank (rp : List (String × String)) (char_full : String)
    (hc : pyGet rp "character" "Unknown Ruler" = char_full)
    (h : ∀ r ∈ ranks, pyStartsWith char_full (r ++ " ") = false) :
    (translatePresence rp).rank = "Ruler"
    ∧ (translatePresence rp).name_only = char_full
    ∧ (translatePresence rp).actual_name = (splitRealm char_full).1
    ∧ (translatePresence rp).location = (splitRealm char_full).2 := by
  have hnone : ranksSorted.find? (rankMatches char_full) = none := by
    rw [List.find?_eq_none]
    intro x hx
    simp [rankMatches, h x (ranksSorted_subset x hx)]
  have hm : matchRank char_full = ("Ruler", char_full) := by
    rw [matchRank, hnone]
  refine ⟨?_, ?_, ?_, ?_⟩ <;> simp [translatePresence, hc, hm]

/-- Witness for C10 at the rank-less character string
"Mordechai of Tmutarakan". -/
theorem c10_witness :
    (translatePresence [("character", "Mordechai of Tmutarakan")]).rank = "Ruler"
    ∧ (translatePresence [("character", "Mordechai of Tmutarakan")]).name_only
        = "Mordechai of Tmutarakan"
    ∧ (translatePresence [("character", "Mordechai of Tmutarakan")]).actual_name
        = (splitRealm "Mordechai of Tmutarakan").1
    ∧ (translatePresence [("character", "Mordechai of Tmutarakan")]).location
        = (splitRealm "Mordechai of Tmutarakan").2 :=
  c10_default_rank _ _ (by decide) (by decide)

/-- C1 (code bug).  At a concrete state with a prior link row (1, 5) and one
pending handshake for requester 1: a confirmation by the correct requester
(actor 1) upserts the link table to exactly one row (1, 999), but the
callback then stops with the TypeError raised by awaiting the plain
add_link call, so the handshake is NOT removed from pending_links — against
the claim that the PendingHandshake is discarded.  A confirmation by a
different actor (actor 2) is rejected with no state change, as claimed. -/
theorem c1_confirmation_code_bug :
    confirm_callback ⟨[(1, 5)], [⟨7, 1, 0⟩]⟩ ⟨7, 1, 0⟩ 1 999
        = (⟨[(1, 999)], [⟨7, 1, 0⟩]⟩, ConfirmOutcome.typeError)
    ∧ confirm_callback ⟨[(1, 5)], [⟨7, 1, 0⟩]⟩ ⟨7, 1, 0⟩ 2 999
        = (⟨[(1, 5)], [⟨7, 1, 0⟩]⟩, ConfirmOutcome.rejected) := by
  decide

/-- C2 counterexample.  A pending handshake created at time 0 is already 301
seconds old — past the 300-second window — when a new-peer event arrives,
yet the scan still offers it the confirmation prompt and leaves it in the
pending collection: nothing is skipped or removed. -/
theorem c2_counterexample :
    ((301 : Int) - (⟨7, 1, 0⟩ : LinkView).createdAt > linkViewTimeout)
    ∧ (on_steam_friend_added ⟨[], [⟨7, 1, 0⟩]⟩ 999 "Bob").2
        = [update_with_confirmation ⟨7, 1, 0⟩ 999 "Bob"]
    ∧ (on_steam_friend_added ⟨[], [⟨7, 1, 0⟩]⟩ 999 "Bob").1
        = ⟨[], [⟨7, 1, 0⟩]⟩ := by
  decide

/-- C2 (amended).  The new-peer scan offers the confirmation prompt to every
view in the pending collection — with no regard to its age — and removes
none of them; in particular any expired handshake is still prompted and
retained. -/
theorem c2_scan_ignores_expiry (bot : BotState) (steam_id : Int)
    (steam_name : String) (v : LinkView) (hv : v ∈ bot.pending_links) :
    update_with_confirmation v steam_id steam_name
        ∈ (on_steam_friend_added bot steam_id steam_name).2
    ∧ v ∈ (on_steam_friend_added bot steam_id steam_name).1.pending_links := by
  exact ⟨List.mem_map_of_mem _ hv, hv⟩

/-- Witness for C2 at a one-element pending collection. -/
theorem c2_witness :
    update_with_confirmation ⟨7, 1, 0⟩ 999 "Bob"
        ∈ (on_steam_friend_added ⟨[], [⟨7, 1, 0⟩]⟩ 999 "Bob").2
    ∧ (⟨7, 1, 0⟩ : LinkView)
        ∈ (on_steam_friend_added ⟨[], [⟨7, 1, 0⟩]⟩ 999 "Bob").1.pending_links :=
  c2_scan_ignores_expiry ⟨[], [⟨7, 1, 0⟩]⟩ 999 "Bob" ⟨7, 1, 0⟩ (by decide)

/-- C3 counterexample.  Composing with an empty fields mapping draws all
three text rows as the empty string — the defined default of
text_data.get(key, default) is blank, not a non-blank default string. -/
theorem c3_counterexample :
    (composite (mkBgLayer none) none []).content.ops
      = [DrawOp.rect 65 55 355 245 20 10 10,
         DrawOp.text 145 135 "NO SIGNAL" 100 100 100,
         DrawOp.text 730 75 "" 40 30 10,
         DrawOp.text 735 160 "" 0 0 0,
         DrawOp.text 735 245 "" 60 40 20] := by
  decide

/-- C3 (amended).  Each structured text row missing from the fields mapping
is rendered as the empty string (the defined default of the get call), so
composition is total — it never raises — but the missing field is drawn
blank; a present field is drawn with its stored value. -/
theorem c3_missing_fields_blank (bg : Canvas) (ai : Option Image)
    (td : List (String × String)) :
    (pyGetOpt td "row1" = none →
      DrawOp.text 730 75 "" 40 30 10 ∈ (composite bg ai td).content.ops)
    ∧ (∀ v, pyGetOpt td "row1" = some v →
      DrawOp.text 730 75 v 40 30 10 ∈ (composite bg ai td).content.ops)
    ∧ (pyGetOpt td "row2" = none →
      DrawOp.text 735 160 "" 0 0 0 ∈ (composite bg ai td).content.ops)
    ∧ (∀ v, pyGetOpt td "row2" = some v →
      DrawOp.text 735 160 v 0 0 0 ∈ (composite bg ai td).content.ops)
    ∧ (pyGetOpt td "row3" = none →
      DrawOp.text 735 245 "" 60 40 20 ∈ (composite bg ai td).content.ops)
    ∧ (∀ v, pyGetOpt td "row3" = some v →
      DrawOp.text 735 245 v 60 40 20 ∈ (composite bg ai td).content.ops) := by
  refine ⟨?_, ?_, ?_, ?_, ?_, ?_⟩ <;>
    first
      | (intro h; cases ai <;> simp [composite, savePNG, pyGet, h])
      | (intro v h; cases ai <;> simp [composite, savePNG, pyGet, h])

/-- Witness for C3: row1 and row3 missing (drawn blank), row2 present. -/
theorem c3_witness :
    (DrawOp.text 730 75 "" 40 30 10
        ∈ (composite (mkBgLayer none) none [("row2", "Count")]).content.ops)
    ∧ (DrawOp.text 735 160 "Count" 0 0 0
        ∈ (composite (mkBgLayer none) none [("row2", "Count")]).content.ops)
    ∧ (DrawOp.text 735 245 "" 60 40 20
        ∈ (composite (mkBgLayer none) none [("row2", "Count")]).content.ops) := by
  have h := c3_missing_fields_blank (mkBgLayer none) none [("row2", "Count")]
  exact ⟨h.1 (by decide), h.2.2.2.1 "Count" (by decide), h.2.2.2.2.1 (by decide)⟩

/-- C6.  generate_ai_image returns None immediately, with no synthesis call
issued, whenever the rate limiter denies admission; when the call is issued
and the response carries no image payload the result is None; and when the
call raises any transport or parsing exception the error is caught and the
result is again None — the function is total, so no exception reaches the
caller. -/
theorem c6_generate_ai_image (limiter : RateLimiter) (now : ℚ)
    (call : Except String GenResponse) :
    ((limiter.check now).2 = false →
      generate_ai_image limiter now call = ((limiter.check now).1, false, none))
    ∧ ((limiter.check now).2 = true → ∀ resp, call = Except.ok resp →
      extract_image resp = none →
      generate_ai_image limiter now call = ((limiter.check now).1, true, none))
    ∧ ((limiter.check now).2 = true → ∀ e, call = Except.error e →
      generate_ai_image limiter now call = ((limiter.check now).1, true, none)) := by
  refine ⟨?_, ?_, ?_⟩
  · intro hf
    simp [generate_ai_image, hf]
  · intro ht resp hok hnone
    simp [generate_ai_image, ht, hok, hnone]
  · intro ht e herr
    simp [generate_ai_image, ht, herr]

/-- Witness for C6: a drained bucket denies (no call issued); a full bucket
with an exception or an empty response yields None through the caught path. -/
theorem c6_witness :
    generate_ai_image ⟨5, 60, 0, 0⟩ 0 (Except.error "boom")
        = ((RateLimiter.check ⟨5, 60, 0, 0⟩ 0).1, false, none)
    ∧ generate_ai_image ⟨5, 60, 5, 0⟩ 0 (Except.error "boom")
        = ((RateLimiter.check ⟨5, 60, 5, 0⟩ 0).1, true, none)
    ∧ generate_ai_image ⟨5, 60, 5, 0⟩ 0 (Except.ok ⟨[]⟩)
        = ((RateLimiter.check ⟨5, 60, 5, 0⟩ 0).1, true, none) := by
  have hf : (RateLimiter.check ⟨5, 60, 0, 0⟩ 0).2 = false := by
    norm_num [RateLimiter.check, RateLimiter.clamped, RateLimiter.refill]
  have ht : (RateLimiter.check ⟨5, 60, 5, 0⟩ 0).2 = true := by
    norm_num [RateLimiter.check, RateLimiter.clamped, RateLimiter.refill]
  refine ⟨(c6_generate_ai_image ⟨5, 60, 0, 0⟩ 0 (Except.error "boom")).1 hf,
    (c6_generate_ai_image ⟨5, 60, 5, 0⟩ 0 (Except.error "boom")).2.2 ht "boom" rfl,
    (c6_generate_ai_image ⟨5, 60, 5, 0⟩ 0 (Except.ok ⟨[]⟩)).2.1 ht ⟨[]⟩ rfl (by decide)⟩

/-- C7.  compose(null, empty fields) is total and returns a buffer that is
non-empty (it carries at least the PNG signature), rewound to position 0, in
the lossless PNG format, whose content contains the placeholder rectangle
and the "NO SIGNAL" marker; and with any supplied image the output content
keeps the fixed canvas dimensions of the background layer, whatever the
input image dimensions. -/
theorem c7_composite (background : Option Image) (img : Image)
    (td : List (String × String)) :
    ((composite (mkBgLayer background) none []).data ≠ []
      ∧ (composite (mkBgLayer background) none []).pos = 0
      ∧ (composite (mkBgLayer background) none []).format = "PNG"
      ∧ DrawOp.rect 65 55 355 245 20 10 10
          ∈ (composite (mkBgLayer background) none []).content.ops
      ∧ DrawOp.text 145 135 "NO SIGNAL" 100 100 100
          ∈ (composite (mkBgLayer background) none []).content.ops)
    ∧ ((composite (mkBgLayer background) (some img) td).content.width
          = (mkBgLayer background).width
      ∧ (composite (mkBgLayer background) (some img) td).content.height
          = (mkBgLayer background).height) := by
  refine ⟨⟨?_, ?_, ?_, ?_, ?_⟩, ?_, ?_⟩ <;>
    cases background <;>
      simp [composite, savePNG, mkBgLayer, pngSignature]

/-- Witness for C7 at a missing background asset, a wide 4000 x 100 input
image and empty fields. -/
theorem c7_witness :
    ((composite (mkBgLayer none) none []).data ≠ []
      ∧ (composite (mkBgLayer none) none []).pos = 0
      ∧ (composite (mkBgLayer none) none []).format = "PNG"
      ∧ DrawOp.rect 65 55 355 245 20 10 10
          ∈ (composite (mkBgLayer none) none []).content.ops
      ∧ DrawOp.text 145 135 "NO SIGNAL" 100 100 100
          ∈ (composite (mkBgLayer none) none []).content.ops)
    ∧ ((composite (mkBgLayer none) (some ⟨4000, 100⟩) []).content.width
          = (mkBgLayer none).width
      ∧ (composite (mkBgLayer none) (some ⟨4000, 100⟩) []).content.height
          = (mkBgLayer none).height) :=
  c7_composite none ⟨4000, 100⟩ []

/-- C8.  The invite handler accepts the inbound invite first and
unconditionally; the notification is submitted to the command loop only when
the loop reference is available; and when it is not, the effects are exactly
the acceptance — no submission — and the state is unchanged, so nothing is
retried or buffered. -/
theorem c8_on_friend_invite (st : SteamServiceState) (steam_id : Int)
    (name : String) :
    (on_friend_invite st steam_id name).2.head?
        = some (SteamEffect.acceptInvite steam_id name)
    ∧ (SteamEffect.submitCoroutine steam_id name ∈ (on_friend_invite st steam_id name).2 →
        st.loopSet = true)
    ∧ (st.loopSet = false →
        (on_friend_invite st steam_id name).2 = [SteamEffect.acceptInvite steam_id name]
        ∧ (on_friend_invite st steam_id name).1 = st) := by
  cases hcb : st.callbackSet <;> cases hlp : st.loopSet <;>
    simp [on_friend_invite, hcb, hlp]

/-- Witness for C8: loop reference missing (event dropped after acceptance)
and both references present (submission implies the loop was available). -/
theorem c8_witness :
    ((on_friend_invite ⟨true, false⟩ 999 "Bob").2.head?
        = some (SteamEffect.acceptInvite 999 "Bob")
      ∧ (on_friend_invite ⟨true, false⟩ 999 "Bob").2
          = [SteamEffect.acceptInvite 999 "Bob"]
      ∧ (on_friend_invite ⟨true, false⟩ 999 "Bob").1 = ⟨true, false⟩)
    ∧ (⟨true, true⟩ : SteamServiceState).loopSet = true := by
  have h1 := c8_on_friend_invite ⟨true, false⟩ 999 "Bob"
  have h2 := c8_on_friend_invite (⟨true, true⟩ : SteamServiceState) 999 "Bob"
  exact ⟨⟨h1.1, (h1.2.2 rfl).1, (h1.2.2 rfl).2⟩, h2.2.1 (by decide)⟩

/-- The upsert leaves exactly the new value readable for the upserted key. -/
theorem get_steam_id_add_link (l : List (Nat × Int)) (d : Nat) (s : Int) :
    get_steam_id (add_link l d s) d = some s := by
  induction l with
  | nil => simp [get_steam_id, add_link]
  | cons p t ih =>
    by_cases h : p.1 = d
    · have h2 : add_link (p :: t) d s = add_link t d s := by
        simp [add_link, h]
      rw [h2]
      exact ih
    · have h2 : add_link (p :: t) d s = p :: add_link t d s := by
        simp [add_link, h]
      rw [h2, get_steam_id, List.find?_cons_of_neg _ (by simp [h])]
      exact ih

/-- C9.  With the session connected and a well-formed numeric external
identifier, the debug force_add command persists the link row for the
requester in that single step: the links table is upserted, the stored id is
immediately readable, the pending-handshake collection is untouched, and the
outcome shows the request was dispatched and the row written — no handshake,
new-peer event or confirmation is involved. -/
theorem c9_force_add (connected : Bool) (bot : BotState) (requester : Nat)
    (steam_id : String) (sid : Int)
    (hconn : connected = true) (hparse : pyInt steam_id = some sid) :
    (force_add connected bot requester steam_id).1.links
        = add_link bot.links requester sid
    ∧ get_steam_id (force_add connected bot requester steam_id).1.links requester
        = some sid
    ∧ (force_add connected bot requester steam_id).1.pending_links
        = bot.pending_links
    ∧ (force_add connected bot requester steam_id).2
        = ForceAddOutcome.requestSentAndLinked sid := by
  subst hconn
  have hl : (force_add true bot requester steam_id)
      = ({ bot with links := add_link bot.links requester sid },
          ForceAddOutcome.requestSentAndLinked sid) := by
    simp [force_add, add_friend, hparse]
  rw [hl]
  exact ⟨rfl, get_steam_id_add_link bot.links requester sid, rfl, rfl⟩

/-- Witness for C9 at an empty state, requester 1 and identifier "999". -/
theorem c9_witness :
    (force_add true ⟨[], []⟩ 1 "999").1.links = add_link [] 1 999
    ∧ get_steam_id (force_add true ⟨[], []⟩ 1 "999").1.links 1 = some 999
    ∧ (force_add true ⟨[], []⟩ 1 "999").1.pending_links = []
    ∧ (force_add true ⟨[], []⟩ 1 "999").2
        = ForceAddOutcome.requestSentAndLinked 999 :=
  c9_force_add true ⟨[], []⟩ 1 "999" 999 rfl (by decide)
